import Mathlib

/-!
Shallow embedding of `src/VLoop/analyze_debug.py`, a crash-report generator
for a MIDI step-looper debug snapshot.

The script walks a JSON document with plain dictionary accesses.  Required
accesses (Python subscript `d[k]`) raise `KeyError` when the key is absent;
optional accesses (`d.get(k, default)`) fall back to a default.  The embedding
mirrors this: every JSON field is an `Option`, a required access pattern
matches and aborts the report with the name of the missing key, an optional
access uses `Option.getD`.  `print` calls are modelled by accumulating the
printed strings (one list element per `print` call, leading newlines kept)
so the report becomes a pure function
`SnapshotJson → List String × Option String`: the output emitted before
returning or aborting, paired with `some key` when a `KeyError` on `key`
escapes (and `none` on a normal return).

The float division of Python in the statistics section is modelled exactly: the
two quotients the script formats with `:.1f` / `:.2f` are rationals, and
`formatDiv` renders `num / den` rounded half-to-even to the requested number
of decimal places, which agrees with the Python formatting at every value the
script can reach exactly (the embedding ignores double-precision rounding of
the quotient itself).
-/

namespace VLoopAnalyze

/-- A raw 3-byte MIDI message as stored in the snapshot (`status`, `data1`,
`data2`), each field optional at the JSON level. -/
structure MidiEventJson where
  status : Option Int
  data1 : Option Int
  data2 : Option Int
  deriving Repr, DecidableEq

/-- A per-pulse event bucket record: `pulse` and `events`. -/
structure BucketJson where
  pulse : Option Int
  events : Option (List MidiEventJson)
  deriving Repr, DecidableEq

/-- The `debug` counters record of the VLoop slot. -/
structure DebugJson where
  stepCallCount : Option Int
  totalClockEdges : Option Int
  totalMidiReceived : Option Int
  totalMidiSent : Option Int
  lastPulseWithMidi : Option Int
  lastMidiSent : Option MidiEventJson
  deriving Repr, DecidableEq

/-- A device slot record. -/
structure SlotJson where
  guid : Option String
  loopLength : Option Int
  currentPulse : Option Int
  isRecording : Option Bool
  isPlaying : Option Bool
  debug : Option DebugJson
  buckets : Option (List BucketJson)
  deriving Repr, DecidableEq

/-- The root snapshot document. -/
structure SnapshotJson where
  slots : Option (List SlotJson)
  deriving Repr, DecidableEq

/-- The empty dict used as default for the optional access to `lastMidiSent`. -/
def emptyMidiEvent : MidiEventJson := ⟨none, none, none⟩

/-- The empty dict used as default for the optional access to `debug`. -/
def emptyDebug : DebugJson := ⟨none, none, none, none, none, none⟩

/-- Python `str` of a bool: `True` / `False`. -/
def pyBool (b : Bool) : String := if b then "True" else "False"

/-- Python `hex`: `0x`-prefixed lowercase hexadecimal, sign in front. -/
def pyHex (n : Int) : String :=
  (if n < 0 then "-0x" else "0x") ++ String.mk (Nat.toDigits 16 n.natAbs)

/-- Insert a comma after every third digit of a reversed digit list. -/
def revGroup : List Char → Nat → List Char
  | [], _ => []
  | [c], _ => [c]
  | c :: c2 :: cs, i =>
      if (i + 1) % 3 = 0 then c :: ',' :: revGroup (c2 :: cs) (i + 1)
      else c :: revGroup (c2 :: cs) (i + 1)

/-- The comma format spec of Python: decimal digits grouped in threes by commas. -/
def commaFormat (n : Int) : String :=
  (if n < 0 then "-" else "") ++
    String.mk ((revGroup (toString n.natAbs).toList.reverse 0).reverse)

/-- Round `num / den` (for `den > 0`) to the nearest integer, ties to the
even neighbour, as the float formatting of Python does. -/
def pyRoundHalfEven (num den : Int) : Int :=
  let q := Int.fdiv num den
  let r := num - q * den
  if 2 * r < den then q
  else if den < 2 * r then q + 1
  else if q % 2 = 0 then q else q + 1

/-- Left-pad a digit string with zeros to width `w`. -/
def padZeros (s : String) (w : Nat) : String :=
  String.mk (List.replicate (w - s.length) '0') ++ s

/-- The fixed-point format of Python applied to `num / den` for `den > 0`: the quotient with
exactly `prec` digits after the point, rounded half-to-even. -/
def formatDiv (num den : Int) (prec : Nat) : String :=
  let n := pyRoundHalfEven (num * (10 : Int) ^ prec) den
  let sign := if n < 0 then "-" else ""
  let m := n.natAbs
  let p := (10 : Nat) ^ prec
  sign ++ toString (m / p) ++ "." ++ padZeros (toString (m % p)) prec

/-- `"=" * 70`, the separator line of the report banner. -/
def sep70 : String := String.mk (List.replicate 70 '=')

/-- The MIDI status decoding shared by the last-sent-event report (lines
47-56 of the script) and the crash-bucket event report (lines 88-98); the
two inline copies in the source build exactly the same strings. -/
def decodeMidi (status data1 data2 : Int) : String :=
  let msg_type := Int.land status 0xF0
  let channel := Int.land status 0x0F + 1
  if msg_type = 0x90 then
    "Note On ch" ++ toString channel ++ ": note=" ++ toString data1 ++
      " vel=" ++ toString data2
  else if msg_type = 0x80 then
    "Note Off ch" ++ toString channel ++ ": note=" ++ toString data1 ++
      " vel=" ++ toString data2
  else if msg_type = 0xB0 then
    "CC ch" ++ toString channel ++ ": cc=" ++ toString data1 ++
      " val=" ++ toString data2
  else
    "Status=" ++ pyHex status ++ " data1=" ++ toString data1 ++
      " data2=" ++ toString data2

/-- Lines 35-39: the debug counters section (all accesses optional). -/
def countersSection (debug : DebugJson) : List String :=
  ["\n=== DEBUG COUNTERS ===",
   "Total step() calls:     " ++ commaFormat (debug.stepCallCount.getD 0),
   "Total clock edges:      " ++ commaFormat (debug.totalClockEdges.getD 0),
   "Total MIDI received:    " ++ commaFormat (debug.totalMidiReceived.getD 0),
   "Total MIDI sent:        " ++ commaFormat (debug.totalMidiSent.getD 0)]

/-- Lines 41-56: the last-sent MIDI message section (all accesses optional). -/
def lastMidiSection (debug : DebugJson) : List String :=
  let last_midi := debug.lastMidiSent.getD emptyMidiEvent
  let status := last_midi.status.getD 0
  let data1 := last_midi.data1.getD 0
  let data2 := last_midi.data2.getD 0
  ["\nLast MIDI sent at pulse " ++ toString (debug.lastPulseWithMidi.getD 0) ++ ":",
   "  " ++ decodeMidi status data1 data2]

/-- Line 63: the comprehension collecting `pulse` over the buckets; `KeyError` at the first bucket
lacking `pulse`. -/
def pulseNumbers : List BucketJson → Except String (List Int)
  | [] => Except.ok []
  | b :: bs =>
    match b.pulse with
    | none => Except.error "pulse"
    | some p => (pulseNumbers bs).map (fun ps => p :: ps)

/-- The list of per-bucket event counts (lines 66-67); `KeyError`
at the first bucket lacking `events`. -/
def eventLens : List BucketJson → Except String (List Nat)
  | [] => Except.ok []
  | b :: bs =>
    match b.events with
    | none => Except.error "events"
    | some evs => (eventLens bs).map (fun ls => evs.length :: ls)

/-- Lines 60-69: the bucket analysis section.  The header and the
`Non-empty buckets` line are printed before the comprehensions of lines
63-67 run, so they survive a `KeyError` raised there. -/
def bucketAnalysisSection (loopLength : Int) (buckets : List BucketJson) :
    List String × Option String :=
  let hdr := ["\n=== BUCKET ANALYSIS ===",
              "Non-empty buckets: " ++ toString buckets.length ++ "/" ++
                toString loopLength]
  match pulseNumbers buckets with
  | Except.error e => (hdr, some e)
  | Except.ok _ =>
    match eventLens buckets with
    | Except.error e => (hdr, some e)
    | Except.ok lens =>
      let total_events := lens.sum
      let max_events := if buckets.isEmpty then 0 else lens.foldl Nat.max 0
      (hdr ++ ["Total recorded events: " ++ toString total_events,
               "Max events per bucket: " ++ toString max_events], none)

/-- Lines 75-79: first bucket whose `pulse` equals the crash pulse. -/
def findCrashBucket (crash_pulse : Int) : List BucketJson → Except String (Option BucketJson)
  | [] => Except.ok none
  | b :: bs =>
    match b.pulse with
    | none => Except.error "pulse"
    | some p =>
      if p = crash_pulse then Except.ok (some b) else findCrashBucket crash_pulse bs

/-- Lines 84-101: one line per event of the crash bucket, starting at index
`i`; the event at overall index 0 carries the would-send marker. -/
def crashEventLines (i : Nat) : List MidiEventJson → List String × Option String
  | [] => ([], none)
  | ev :: evs =>
    match ev.status with
    | none => ([], some "status")
    | some status =>
      match ev.data1 with
      | none => ([], some "data1")
      | some d1 =>
        match ev.data2 with
        | none => ([], some "data2")
        | some d2 =>
          let msg := decodeMidi status d1 d2
          let marker := if i = 0 then " <-- WOULD SEND THIS" else ""
          let line := "  Event " ++ toString i ++ ": " ++ msg ++ marker
          let rest := crashEventLines (i + 1) evs
          (line :: rest.1, rest.2)

/-- Lines 72-103: the crash point section. -/
def crashPointSection (crash_pulse : Int) (buckets : List BucketJson) :
    List String × Option String :=
  let hdr := "\n=== CRASH POINT (Pulse " ++ toString crash_pulse ++ ") ==="
  match findCrashBucket crash_pulse buckets with
  | Except.error e => ([hdr], some e)
  | Except.ok none => ([hdr, "Bucket at crash pulse is EMPTY (no events)"], none)
  | Except.ok (some crash_bucket) =>
    match crash_bucket.events with
    | none => ([hdr], some "events")
    | some events =>
      let countLine := "Bucket at crash has " ++ toString events.length ++ " events:"
      let rest := crashEventLines 0 events
      (hdr :: countLine :: rest.1, rest.2)

/-- Lines 107-112: one line per bucket whose pulse lies in the inclusive
window `[crash_pulse - 3, crash_pulse + 3]`, in stored order. -/
def surroundingLines (crash_pulse : Int) : List BucketJson → List String × Option String
  | [] => ([], none)
  | b :: bs =>
    match b.pulse with
    | none => ([], some "pulse")
    | some pulse =>
      if crash_pulse - 3 ≤ pulse ∧ pulse ≤ crash_pulse + 3 then
        match b.events with
        | none => ([], some "events")
        | some events =>
          let marker := if pulse = crash_pulse then " <-- CRASH" else ""
          let line := "Pulse " ++ toString pulse ++ ": " ++
            toString events.length ++ " events" ++ marker
          let rest := surroundingLines crash_pulse bs
          (line :: rest.1, rest.2)
      else surroundingLines crash_pulse bs

/-- Lines 106-112: the surrounding buckets section. -/
def surroundingSection (crash_pulse : Int) (buckets : List BucketJson) :
    List String × Option String :=
  let rest := surroundingLines crash_pulse buckets
  ("\n=== SURROUNDING BUCKETS ===" :: rest.1, rest.2)

/-- Lines 114-122: the performance statistics section.  The header is
printed unconditionally; the two ratio lines are guarded by
`totalClockEdges > 0` and additionally `loopLength > 0`.  Note the
divisor default of 1 in the optional access on line 117 of the source. -/
def perfSection (debug : DebugJson) (loopLength : Int) : List String :=
  let hdr := "\n=== PERFORMANCE STATS ==="
  if debug.totalClockEdges.getD 0 > 0 then
    let avgLine := "Avg step() calls per clock: " ++
      formatDiv (debug.stepCallCount.getD 0) (debug.totalClockEdges.getD 1) 1
    if loopLength > 0 then
      [hdr, avgLine,
       "Loops played before crash: " ++
         formatDiv (debug.totalClockEdges.getD 0) loopLength 2]
    else [hdr, avgLine]
  else [hdr]

/-- Lines 22-31: the banner and the playback state section. -/
def playbackLines (loopLength crash_pulse : Int) (recFlag playFlag : Bool) : List String :=
  [sep70, "VLoop CRASH ANALYSIS", sep70,
   "\n=== PLAYBACK STATE ===",
   "Loop Length:    " ++ toString loopLength ++ " pulses",
   "Current Pulse:  " ++ toString crash_pulse ++ " <-- CRASHED HERE",
   "Is Recording:   " ++ pyBool recFlag,
   "Is Playing:     " ++ pyBool playFlag]

/-- Lines 22-122: the report printed once the VLoop slot is found and its
four required scalar fields have been read successfully. -/
def reportBody (loopLength crash_pulse : Int) (recFlag playFlag : Bool)
    (debug : DebugJson) (buckets : List BucketJson) : List String × Option String :=
  let pre := playbackLines loopLength crash_pulse recFlag playFlag ++
    countersSection debug ++ lastMidiSection debug
  let ba := bucketAnalysisSection loopLength buckets
  match ba.2 with
  | some e => (pre ++ ba.1, some e)
  | none =>
  let cps := crashPointSection crash_pulse buckets
  match cps.2 with
  | some e => (pre ++ ba.1 ++ cps.1, some e)
  | none =>
  let sur := surroundingSection crash_pulse buckets
  match sur.2 with
  | some e => (pre ++ ba.1 ++ cps.1 ++ sur.1, some e)
  | none =>
  (pre ++ ba.1 ++ cps.1 ++ sur.1 ++ perfSection debug loopLength, none)

/-- The whole report: `analyze_crash` after `json.load` (lines 12-122 of the
script).  Returns the printed lines and `some key` when a `KeyError` on
`key` aborts the run.  The four required slot fields are read in source
order, the output of each earlier line surviving a later `KeyError`. -/
def analyze_crash (data : SnapshotJson) : List String × Option String :=
  match data.slots with
  | none => ([], some "slots")
  | some slots =>
  match slots.find? (fun s => s.guid == some "VLOP") with
  | none => (["ERROR: VLoop slot not found"], none)
  | some vloop =>
  let out1 := [sep70, "VLoop CRASH ANALYSIS", sep70, "\n=== PLAYBACK STATE ==="]
  match vloop.loopLength with
  | none => (out1, some "loopLength")
  | some loopLength =>
  let out2 := out1 ++ ["Loop Length:    " ++ toString loopLength ++ " pulses"]
  match vloop.currentPulse with
  | none => (out2, some "currentPulse")
  | some crash_pulse =>
  let out3 := out2 ++ ["Current Pulse:  " ++ toString crash_pulse ++ " <-- CRASHED HERE"]
  match vloop.isRecording with
  | none => (out3, some "isRecording")
  | some recFlag =>
  let out4 := out3 ++ ["Is Recording:   " ++ pyBool recFlag]
  match vloop.isPlaying with
  | none => (out4, some "isPlaying")
  | some playFlag =>
  reportBody loopLength crash_pulse recFlag playFlag
    (vloop.debug.getD emptyDebug) (vloop.buckets.getD [])

/-- Fully-present MIDI event, from a `(status, data1, data2)` triple. -/
def mkEvent (e : Int × Int × Int) : MidiEventJson :=
  ⟨some e.1, some e.2.1, some e.2.2⟩

/-- Fully-present bucket, from a `(pulse, events)` pair. -/
def mkBucket (b : Int × List (Int × Int × Int)) : BucketJson :=
  ⟨some b.1, some (b.2.map mkEvent)⟩

/-- Fully-present debug record from five counters and a last-sent event. -/
def mkDebug (scc tce tmr tms lpwm : Int) (lms : Option MidiEventJson) : DebugJson :=
  ⟨some scc, some tce, some tmr, some tms, some lpwm, lms⟩

/-- A fully-present `"VLOP"`-tagged slot. -/
def mkSlot (loopLength currentPulse : Int) (recFlag playFlag : Bool)
    (debug : Option DebugJson) (bs : List (Int × List (Int × Int × Int))) : SlotJson :=
  ⟨some "VLOP", some loopLength, some currentPulse, some recFlag, some playFlag,
   debug, some (bs.map mkBucket)⟩

/-! ### Structural lemmas about the report -/

/-- Once the VLoop slot is found and its four required fields read, the
report is `reportBody` of those values. -/
theorem analyze_crash_found (data : SnapshotJson) (slots : List SlotJson)
    (vloop : SlotJson) (loopLength crash_pulse : Int) (recFlag playFlag : Bool)
    (hs : data.slots = some slots)
    (hf : slots.find? (fun s => s.guid == some "VLOP") = some vloop)
    (hll : vloop.loopLength = some loopLength)
    (hcp : vloop.currentPulse = some crash_pulse)
    (hrec : vloop.isRecording = some recFlag)
    (hplay : vloop.isPlaying = some playFlag) :
    analyze_crash data =
      reportBody loopLength crash_pulse recFlag playFlag
        (vloop.debug.getD emptyDebug) (vloop.buckets.getD []) := by
  simp only [analyze_crash, hs, hf, hll, hcp, hrec, hplay]

/-- On the error-free path the report is the concatenation of its sections. -/
theorem reportBody_of_ok (loopLength crash_pulse : Int) (recFlag playFlag : Bool)
    (debug : DebugJson) (buckets : List BucketJson)
    (h1 : (bucketAnalysisSection loopLength buckets).2 = none)
    (h2 : (crashPointSection crash_pulse buckets).2 = none)
    (h3 : (surroundingSection crash_pulse buckets).2 = none) :
    reportBody loopLength crash_pulse recFlag playFlag debug buckets =
      (playbackLines loopLength crash_pulse recFlag playFlag ++
        countersSection debug ++ lastMidiSection debug ++
        (bucketAnalysisSection loopLength buckets).1 ++
        (crashPointSection crash_pulse buckets).1 ++
        (surroundingSection crash_pulse buckets).1 ++
        perfSection debug loopLength, none) := by
  simp only [reportBody, h1, h2, h3, List.append_assoc]

/-- With `totalClockEdges` missing or zero the statistics section is just
its header line. -/
theorem perfSection_of_no_edges (debug : DebugJson) (loopLength : Int)
    (h : debug.totalClockEdges.getD 0 = 0) :
    perfSection debug loopLength = ["\n=== PERFORMANCE STATS ==="] := by
  simp only [perfSection, h]
  norm_num

/-! ### Claims -/

/-- Claim C2: for every snapshot whose slot sequence contains no slot tagged
`"VLOP"`, the report is exactly the single diagnostic line
`"ERROR: VLoop slot not found"` with a normal (non-exceptional) return. -/
theorem claim_C2 (data : SnapshotJson) (slots : List SlotJson)
    (hs : data.slots = some slots)
    (hnone : ∀ s ∈ slots, s.guid ≠ some "VLOP") :
    analyze_crash data = (["ERROR: VLoop slot not found"], none) := by
  have hf : slots.find? (fun s => s.guid == some "VLOP") = none := by
    rw [List.find?_eq_none]
    intro s hmem
    simpa using hnone s hmem
  simp only [analyze_crash, hs, hf]

theorem claim_C2_witness :
    (∀ s ∈ [(⟨some "OTHR", none, none, none, none, none, none⟩ : SlotJson)],
      s.guid ≠ some "VLOP") ∧
    analyze_crash ⟨some [⟨some "OTHR", none, none, none, none, none, none⟩]⟩ =
      (["ERROR: VLoop slot not found"], none) :=
  ⟨by decide, claim_C2 _ _ rfl (by decide)⟩

/-- Claim C3: the MIDI decode computes type `status AND 0xF0` and channel
`(status AND 0x0F) + 1`, renders types `0x90`/`0x80`/`0xB0` as Note On /
Note Off / Control Change with `data1`/`data2` fields, any other type via
the hexadecimal generic fallback, and in particular decodes the four
concrete messages of the spec as stated. -/
theorem claim_C3 (s d1 d2 : Int) :
    (Int.land s 0xF0 = 0x90 →
      decodeMidi s d1 d2 = "Note On ch" ++ toString (Int.land s 0x0F + 1) ++
        ": note=" ++ toString d1 ++ " vel=" ++ toString d2) ∧
    (Int.land s 0xF0 = 0x80 →
      decodeMidi s d1 d2 = "Note Off ch" ++ toString (Int.land s 0x0F + 1) ++
        ": note=" ++ toString d1 ++ " vel=" ++ toString d2) ∧
    (Int.land s 0xF0 = 0xB0 →
      decodeMidi s d1 d2 = "CC ch" ++ toString (Int.land s 0x0F + 1) ++
        ": cc=" ++ toString d1 ++ " val=" ++ toString d2) ∧
    (Int.land s 0xF0 ≠ 0x90 → Int.land s 0xF0 ≠ 0x80 → Int.land s 0xF0 ≠ 0xB0 →
      decodeMidi s d1 d2 = "Status=" ++ pyHex s ++
        " data1=" ++ toString d1 ++ " data2=" ++ toString d2) ∧
    decodeMidi 0x90 60 100 = "Note On ch1: note=60 vel=100" ∧
    decodeMidi 0x81 40 0 = "Note Off ch2: note=40 vel=0" ∧
    decodeMidi 0xB2 7 127 = "CC ch3: cc=7 val=127" ∧
    decodeMidi 0xF8 0 0 = "Status=0xf8 data1=0 data2=0" := by
  refine ⟨?_, ?_, ?_, ?_, by decide, by decide, by decide, by decide⟩
  · intro h; simp [decodeMidi, h]
  · intro h; simp [decodeMidi, h]
  · intro h; simp [decodeMidi, h]
  · intro h1 h2 h3; simp [decodeMidi, h1, h2, h3]

theorem claim_C3_witness :
    Int.land 0x93 0xF0 = 0x90 ∧
    decodeMidi 0x93 15 27 = "Note On ch4: note=15 vel=27" :=
  ⟨by decide, ((claim_C3 0x93 15 27).1 (by decide)).trans (by decide)⟩

/-- Claim C8: with `totalClockEdges > 0` the statistics section prints the
average step-calls-per-clock-edge `stepCallCount / totalClockEdges` to one
decimal place, and when additionally `loopLength > 0` the loops-played ratio
`totalClockEdges / loopLength` to two decimal places — each quotient taken
only under its strictly positive divisor — and the concrete spec figures
`stepCallCount=1000, totalClockEdges=20, loopLength=16` yield `50.0` and
`1.25`. -/
theorem claim_C8 (debug : DebugJson) (loopLength tce : Int)
    (htce : debug.totalClockEdges = some tce) (hpos : 0 < tce) :
    perfSection debug loopLength =
      ["\n=== PERFORMANCE STATS ===",
       "Avg step() calls per clock: " ++
         formatDiv (debug.stepCallCount.getD 0) tce 1] ++
      (if 0 < loopLength then
        ["Loops played before crash: " ++ formatDiv tce loopLength 2]
      else []) ∧
    formatDiv 1000 20 1 = "50.0" ∧
    formatDiv 20 16 2 = "1.25" ∧
    perfSection (mkDebug 1000 20 0 0 0 none) 16 =
      ["\n=== PERFORMANCE STATS ===",
       "Avg step() calls per clock: 50.0",
       "Loops played before crash: 1.25"] := by
  refine ⟨?_, by decide, by decide, by decide⟩
  simp only [perfSection, htce, Option.getD_some]
  rw [if_pos hpos]
  by_cases hll : 0 < loopLength
  · rw [if_pos hll, if_pos hll]; rfl
  · rw [if_neg hll, if_neg hll]; rfl

theorem claim_C8_witness :
    (mkDebug 1000 20 0 0 0 none).totalClockEdges = some 20 ∧ (0:Int) < 20 ∧
    perfSection (mkDebug 1000 20 0 0 0 none) 16 =
      ["\n=== PERFORMANCE STATS ===",
       "Avg step() calls per clock: 50.0",
       "Loops played before crash: 1.25"] :=
  ⟨rfl, by decide, (claim_C8 (mkDebug 1000 20 0 0 0 none) 16 20 rfl (by decide)).2.2.2⟩

/-- Claim C1, counterexample: a snapshot whose VLoop slot reports
`totalClockEdges = 0` still gets the `=== PERFORMANCE STATS ===` header
printed (line 115 of the script prints it before the guard of line 116), as
the final line of the report — so the performance-statistics section is not
entirely absent from the output. -/
theorem claim_C1_counterexample :
    ((mkSlot 16 5 true false (some (mkDebug 1000 0 0 0 0 none)) []).debug.getD
        emptyDebug).totalClockEdges.getD 0 = 0 ∧
    "\n=== PERFORMANCE STATS ===" ∈
      (analyze_crash ⟨some [mkSlot 16 5 true false
        (some (mkDebug 1000 0 0 0 0 none)) []]⟩).1 ∧
    (analyze_crash ⟨some [mkSlot 16 5 true false
        (some (mkDebug 1000 0 0 0 0 none)) []]⟩).1.getLast? =
      some "\n=== PERFORMANCE STATS ===" :=
  ⟨by decide, by decide, by decide⟩

/-- Claim C1, amended: for every snapshot that reaches the report and
completes it with `totalClockEdges` equal to 0 (or absent), the
`=== PERFORMANCE STATS ===` header line is still printed, but no statistics
values follow it — the header is the final line of the output. -/
theorem claim_C1 (data : SnapshotJson) (slots : List SlotJson) (vloop : SlotJson)
    (loopLength crash_pulse : Int) (recFlag playFlag : Bool)
    (hs : data.slots = some slots)
    (hf : slots.find? (fun s => s.guid == some "VLOP") = some vloop)
    (hll : vloop.loopLength = some loopLength)
    (hcp : vloop.currentPulse = some crash_pulse)
    (hrec : vloop.isRecording = some recFlag)
    (hplay : vloop.isPlaying = some playFlag)
    (htce : ((vloop.debug.getD emptyDebug).totalClockEdges).getD 0 = 0)
    (hok : (analyze_crash data).2 = none) :
    "\n=== PERFORMANCE STATS ===" ∈ (analyze_crash data).1 ∧
    (analyze_crash data).1.getLast? = some "\n=== PERFORMANCE STATS ===" := by
  rw [analyze_crash_found data slots vloop loopLength crash_pulse recFlag playFlag
    hs hf hll hcp hrec hplay] at hok ⊢
  cases h1 : (bucketAnalysisSection loopLength (vloop.buckets.getD [])).2 with
  | some e => simp [reportBody, h1] at hok
  | none =>
  cases h2 : (crashPointSection crash_pulse (vloop.buckets.getD [])).2 with
  | some e => simp [reportBody, h1, h2] at hok
  | none =>
  cases h3 : (surroundingSection crash_pulse (vloop.buckets.getD [])).2 with
  | some e => simp [reportBody, h1, h2, h3] at hok
  | none =>
    rw [reportBody_of_ok _ _ _ _ _ _ h1 h2 h3, perfSection_of_no_edges _ _ htce]
    exact ⟨by simp, by simp⟩

theorem claim_C1_witness :
    (analyze_crash ⟨some [mkSlot 16 5 true false none []]⟩).2 = none ∧
    "\n=== PERFORMANCE STATS ===" ∈
      (analyze_crash ⟨some [mkSlot 16 5 true false none []]⟩).1 ∧
    (analyze_crash ⟨some [mkSlot 16 5 true false none []]⟩).1.getLast? =
      some "\n=== PERFORMANCE STATS ===" :=
  ⟨by decide,
   claim_C1 _ [mkSlot 16 5 true false none []] (mkSlot 16 5 true false none [])
     16 5 true false rfl (by decide) rfl rfl rfl rfl (by decide) (by decide)⟩

/-! ### Behaviour on fully-present (spec-level) buckets -/

/-- On fully-present buckets the pulse-list comprehension succeeds and
returns the pulses. -/
theorem pulseNumbers_map_mkBucket (bs : List (Int × List (Int × Int × Int))) :
    pulseNumbers (bs.map mkBucket) = Except.ok (bs.map fun b => b.1) := by
  induction bs with
  | nil => rfl
  | cons b bs ih => simp [pulseNumbers, mkBucket, ih, Except.map]

/-- On fully-present buckets the event-count comprehension succeeds and
returns the event counts. -/
theorem eventLens_map_mkBucket (bs : List (Int × List (Int × Int × Int))) :
    eventLens (bs.map mkBucket) = Except.ok (bs.map fun b => b.2.length) := by
  induction bs with
  | nil => rfl
  | cons b bs ih => simp [eventLens, mkBucket, ih, Except.map]

/-- The bucket analysis section on fully-present buckets: header, the
non-empty-bucket count over `loopLength`, the sum of the per-bucket event
counts, and their running maximum. -/
theorem bucketAnalysisSection_map_mkBucket (loopLength : Int)
    (bs : List (Int × List (Int × Int × Int))) :
    bucketAnalysisSection loopLength (bs.map mkBucket) =
      (["\n=== BUCKET ANALYSIS ===",
        "Non-empty buckets: " ++ toString bs.length ++ "/" ++ toString loopLength,
        "Total recorded events: " ++ toString (bs.map fun b => b.2.length).sum,
        "Max events per bucket: " ++
          toString ((bs.map fun b => b.2.length).foldl Nat.max 0)], none) := by
  unfold bucketAnalysisSection
  rw [pulseNumbers_map_mkBucket, eventLens_map_mkBucket]
  cases bs with
  | nil => rfl
  | cons b bs => simp [List.isEmpty]

/-- The surrounding-context lines on fully-present buckets: one line per
bucket whose pulse lies in the window, in stored order, the crash pulse
annotated; no failure. -/
theorem surroundingLines_map_mkBucket (cp : Int)
    (bs : List (Int × List (Int × Int × Int))) :
    surroundingLines cp (bs.map mkBucket) =
      ((bs.filter fun b => decide (cp - 3 ≤ b.1 ∧ b.1 ≤ cp + 3)).map fun b =>
        "Pulse " ++ toString b.1 ++ ": " ++ toString b.2.length ++ " events" ++
          (if b.1 = cp then " <-- CRASH" else ""), none) := by
  induction bs with
  | nil => rfl
  | cons b bs ih =>
    by_cases h : cp - 3 ≤ b.1 ∧ b.1 ≤ cp + 3
    · simp only [List.map_cons, surroundingLines, mkBucket]
      rw [if_pos h, List.filter_cons, if_pos (decide_eq_true h), ih]
      simp
    · simp only [List.map_cons, surroundingLines, mkBucket]
      rw [if_neg h, List.filter_cons, if_neg (by simpa using h), ih]

/-- When no bucket carries the crash pulse the crash-bucket search succeeds
with no result. -/
theorem findCrashBucket_map_none (cp : Int)
    (bs : List (Int × List (Int × Int × Int))) (h : ∀ b ∈ bs, b.1 ≠ cp) :
    findCrashBucket cp (bs.map mkBucket) = Except.ok none := by
  induction bs with
  | nil => rfl
  | cons b bs ih =>
    simp only [List.map_cons, findCrashBucket, mkBucket]
    rw [if_neg (h b (by simp))]
    exact ih fun x hx => h x (by simp [hx])

/-- The crash-bucket search returns the first bucket carrying the crash
pulse. -/
theorem findCrashBucket_map_found (cp : Int)
    (pre rest : List (Int × List (Int × Int × Int)))
    (evs : List (Int × Int × Int)) (h : ∀ b ∈ pre, b.1 ≠ cp) :
    findCrashBucket cp ((pre ++ (cp, evs) :: rest).map mkBucket) =
      Except.ok (some (mkBucket (cp, evs))) := by
  induction pre with
  | nil => simp [findCrashBucket, mkBucket]
  | cons b pre ih =>
    simp only [List.cons_append, List.map_cons, findCrashBucket, mkBucket]
    rw [if_neg (h b (by simp))]
    exact ih fun x hx => h x (by simp [hx])

/-- The crash-bucket event printout on fully-present events: one line per
event in stored order, numbered from `i`, the line at overall index 0 (and
only that one) carrying the would-send marker; no failure. -/
theorem crashEventLines_map_mkEvent (i : Nat) (evs : List (Int × Int × Int)) :
    (crashEventLines i (evs.map mkEvent)).2 = none ∧
    (crashEventLines i (evs.map mkEvent)).1.length = evs.length ∧
    ∀ j (hj : j < evs.length),
      (crashEventLines i (evs.map mkEvent)).1[j]? =
        some ("  Event " ++ toString (i + j) ++ ": " ++
          decodeMidi (evs.get ⟨j, hj⟩).1 (evs.get ⟨j, hj⟩).2.1 (evs.get ⟨j, hj⟩).2.2 ++
          (if i + j = 0 then " <-- WOULD SEND THIS" else "")) := by
  induction evs generalizing i with
  | nil => exact ⟨rfl, rfl, fun j hj => absurd hj (Nat.not_lt_zero j)⟩
  | cons e evs ih =>
    obtain ⟨ih2, ihlen, ihget⟩ := ih (i + 1)
    refine ⟨by simpa [crashEventLines, mkEvent] using ih2,
            by simpa [crashEventLines, mkEvent] using ihlen, ?_⟩
    intro j hj
    cases j with
    | zero =>
      simp [crashEventLines, mkEvent]
    | succ j =>
      have hj' : j < evs.length := Nat.lt_of_succ_lt_succ hj
      simp only [List.map_cons, crashEventLines, mkEvent, List.getElem?_cons_succ]
      rw [ihget j hj']
      have h1 : i + 1 + j = i + (j + 1) := by omega
      rw [h1, if_neg (by omega : i + (j + 1) ≠ 0)]
      rfl

/-- Claim C5: the surrounding-context section prints exactly the buckets
whose pulse lies in the inclusive window `[currentPulse - 3, currentPulse + 3]`,
one line each with pulse and event count, in the stored order, annotating
the crash pulse; in particular, with `currentPulse = 50` and bucket pulses
`48, 49, 50, 52`, exactly those four lines appear in order with pulse 50
annotated. -/
theorem claim_C5 (cp : Int) (bs : List (Int × List (Int × Int × Int))) :
    surroundingSection cp (bs.map mkBucket) =
      ("\n=== SURROUNDING BUCKETS ===" ::
        ((bs.filter fun b => decide (cp - 3 ≤ b.1 ∧ b.1 ≤ cp + 3)).map fun b =>
          "Pulse " ++ toString b.1 ++ ": " ++ toString b.2.length ++ " events" ++
            (if b.1 = cp then " <-- CRASH" else "")), none) ∧
    surroundingSection 50 (([(48, [(144, 60, 100)]), (49, [(144, 60, 100), (128, 60, 0)]),
        (50, [(178, 7, 127)]), (52, [(144, 60, 100), (128, 60, 0), (178, 7, 127)])] :
        List (Int × List (Int × Int × Int))).map mkBucket) =
      (["\n=== SURROUNDING BUCKETS ===",
        "Pulse 48: 1 events",
        "Pulse 49: 2 events",
        "Pulse 50: 1 events <-- CRASH",
        "Pulse 52: 3 events"], none) := by
  constructor
  · unfold surroundingSection
    rw [surroundingLines_map_mkBucket]
  · decide

/-- A left fold of `Nat.max` bounds the start value and every element. -/
theorem le_foldl_max (l : List Nat) (a : Nat) :
    a ≤ l.foldl Nat.max a ∧ ∀ x ∈ l, x ≤ l.foldl Nat.max a := by
  induction l generalizing a with
  | nil => simp
  | cons x l ih =>
    obtain ⟨h1, h2⟩ := ih (Nat.max a x)
    have hal : a ≤ Nat.max a x := Nat.le_max_left a x
    have hxr : x ≤ Nat.max a x := Nat.le_max_right a x
    refine ⟨?_, ?_⟩
    · rw [List.foldl_cons]
      exact le_trans hal h1
    · intro y hy
      rw [List.foldl_cons]
      rcases List.mem_cons.1 hy with rfl | hy
      · exact le_trans hxr h1
      · exact h2 y hy

/-- A left fold of `Nat.max` is the start value or one of the elements. -/
theorem foldl_max_mem (l : List Nat) (a : Nat) : l.foldl Nat.max a ∈ a :: l := by
  induction l generalizing a with
  | nil => simp
  | cons x l ih =>
    have h := ih (Nat.max a x)
    simp only [List.foldl_cons, List.mem_cons] at h ⊢
    rcases h with h | h
    · have hc : Nat.max a x = a ∨ Nat.max a x = x := max_choice a x
      rcases hc with hm | hm
      · exact Or.inl (h.trans hm)
      · exact Or.inr (Or.inl (h.trans hm))
    · exact Or.inr (Or.inr h)

/-- Claim C6: the reported total of recorded events is the sum of the
per-bucket event counts and the reported maximum is the greatest such count,
reported as 0 (not an error) for an empty bucket sequence. -/
theorem claim_C6 (loopLength : Int) (bs : List (Int × List (Int × Int × Int))) :
    bucketAnalysisSection loopLength (bs.map mkBucket) =
      (["\n=== BUCKET ANALYSIS ===",
        "Non-empty buckets: " ++ toString bs.length ++ "/" ++ toString loopLength,
        "Total recorded events: " ++ toString (bs.map fun b => b.2.length).sum,
        "Max events per bucket: " ++
          toString ((bs.map fun b => b.2.length).foldl Nat.max 0)], none) ∧
    (∀ x ∈ bs.map fun b => b.2.length, x ≤ (bs.map fun b => b.2.length).foldl Nat.max 0) ∧
    (bs = [] → (bs.map fun b => b.2.length).foldl Nat.max 0 = 0) ∧
    (bs ≠ [] → (bs.map fun b => b.2.length).foldl Nat.max 0 ∈ bs.map fun b => b.2.length) := by
  refine ⟨bucketAnalysisSection_map_mkBucket loopLength bs, (le_foldl_max _ 0).2, ?_, ?_⟩
  · intro h
    subst h
    rfl
  · intro hne
    have hmem := foldl_max_mem (bs.map fun b => b.2.length) 0
    rcases List.mem_cons.1 hmem with h0 | hmem
    · cases hbs : bs with
      | nil => exact absurd hbs hne
      | cons b bs2 =>
        subst hbs
        have hle := (le_foldl_max ((b :: bs2).map fun b => b.2.length) 0).2
          b.2.length (by simp)
        rw [h0] at hle
        have hz : b.2.length = 0 := Nat.le_zero.1 hle
        rw [h0]
        simp only [List.map_cons, List.mem_cons]
        exact Or.inl hz.symm
    · exact hmem

/-- Claim C4: if some bucket carries the crash pulse, the crash-point
section prints its event count and then each of its events in stored order,
decoded by the MIDI rule, annotating exactly the event at index 0 as the
one that would have been sent next; if no bucket carries the crash pulse it
prints that the bucket is empty and returns without error. -/
theorem claim_C4 :
    (∀ (cp : Int) (bs : List (Int × List (Int × Int × Int))),
      (∀ b ∈ bs, b.1 ≠ cp) →
      crashPointSection cp (bs.map mkBucket) =
        (["\n=== CRASH POINT (Pulse " ++ toString cp ++ ") ===",
          "Bucket at crash pulse is EMPTY (no events)"], none)) ∧
    (∀ (cp : Int) (pre rest : List (Int × List (Int × Int × Int)))
        (evs : List (Int × Int × Int)),
      (∀ b ∈ pre, b.1 ≠ cp) →
      (crashPointSection cp ((pre ++ (cp, evs) :: rest).map mkBucket)).2 = none ∧
      (crashPointSection cp ((pre ++ (cp, evs) :: rest).map mkBucket)).1.length =
        2 + evs.length ∧
      (crashPointSection cp ((pre ++ (cp, evs) :: rest).map mkBucket)).1[0]? =
        some ("\n=== CRASH POINT (Pulse " ++ toString cp ++ ") ===") ∧
      (crashPointSection cp ((pre ++ (cp, evs) :: rest).map mkBucket)).1[1]? =
        some ("Bucket at crash has " ++ toString evs.length ++ " events:") ∧
      ∀ j (hj : j < evs.length),
        (crashPointSection cp ((pre ++ (cp, evs) :: rest).map mkBucket)).1[2 + j]? =
          some ("  Event " ++ toString j ++ ": " ++
            decodeMidi (evs.get ⟨j, hj⟩).1 (evs.get ⟨j, hj⟩).2.1 (evs.get ⟨j, hj⟩).2.2 ++
            (if j = 0 then " <-- WOULD SEND THIS" else ""))) := by
  constructor
  · intro cp bs h
    unfold crashPointSection
    rw [findCrashBucket_map_none cp bs h]
  · intro cp pre rest evs h
    obtain ⟨hz, hlen, hget⟩ := crashEventLines_map_mkEvent 0 evs
    unfold crashPointSection
    rw [findCrashBucket_map_found cp pre rest evs h]
    simp only [mkBucket, List.length_map]
    refine ⟨hz, ?_, by simp, by simp, ?_⟩
    · simp only [List.length_cons, hlen]
      omega
    · intro j hj
      have h2 : 2 + j = j + 1 + 1 := by omega
      rw [h2]
      simp only [List.getElem?_cons_succ]
      have := hget j hj
      rw [Nat.zero_add] at this
      exact this

theorem claim_C4_witness :
    (∀ b ∈ ([(3, [(178, 7, 127)])] : List (Int × List (Int × Int × Int))), b.1 ≠ 5) ∧
    (crashPointSection 5 ((([(3, [(178, 7, 127)])] ++ (5, [(144, 60, 100), (128, 60, 0)]) :: []) :
        List (Int × List (Int × Int × Int))).map mkBucket)).1[2 + 0]? =
      some "  Event 0: Note On ch1: note=60 vel=100 <-- WOULD SEND THIS" ∧
    (crashPointSection 5 ((([(3, [(178, 7, 127)])] ++ (5, [(144, 60, 100), (128, 60, 0)]) :: []) :
        List (Int × List (Int × Int × Int))).map mkBucket)).1[2 + 1]? =
      some "  Event 1: Note Off ch1: note=60 vel=0" :=
  ⟨by decide,
   ((claim_C4.2 5 [(3, [(178, 7, 127)])] [] [(144, 60, 100), (128, 60, 0)]
      (by decide)).2.2.2.2 0 (by decide)).trans (by decide),
   ((claim_C4.2 5 [(3, [(178, 7, 127)])] [] [(144, 60, 100), (128, 60, 0)]
      (by decide)).2.2.2.2 1 (by decide)).trans (by decide)⟩

theorem claim_C6_witness :
    (([(4, [(144, 60, 100), (128, 60, 0)]), (7, [(178, 7, 127)])] :
        List (Int × List (Int × Int × Int))) ≠ []) ∧
    bucketAnalysisSection 16
      (([(4, [(144, 60, 100), (128, 60, 0)]), (7, [(178, 7, 127)])] :
        List (Int × List (Int × Int × Int))).map mkBucket) =
      (["\n=== BUCKET ANALYSIS ===",
        "Non-empty buckets: 2/16",
        "Total recorded events: 3",
        "Max events per bucket: 2"], none) ∧
    (([(4, [(144, 60, 100), (128, 60, 0)]), (7, [(178, 7, 127)])] :
        List (Int × List (Int × Int × Int))).map fun b => b.2.length).foldl Nat.max 0 ∈
      (([(4, [(144, 60, 100), (128, 60, 0)]), (7, [(178, 7, 127)])] :
        List (Int × List (Int × Int × Int))).map fun b => b.2.length) :=
  ⟨by decide,
   (claim_C6 16 [(4, [(144, 60, 100), (128, 60, 0)]), (7, [(178, 7, 127)])]).1.trans
     (by decide),
   (claim_C6 16 [(4, [(144, 60, 100), (128, 60, 0)]), (7, [(178, 7, 127)])]).2.2.2
     (by decide)⟩

/-- Claim C7: for a valid snapshot — distinct bucket pulses, each in
`[0, loopLength)`, each bucket non-empty — the reported non-empty-bucket
count is the length of the bucket sequence and cannot exceed `loopLength`. -/
theorem claim_C7 (loopLength : Int) (bs : List (Int × List (Int × Int × Int)))
    (hll : 0 ≤ loopLength)
    (hnd : (bs.map fun b => b.1).Nodup)
    (hrange : ∀ b ∈ bs, 0 ≤ b.1 ∧ b.1 < loopLength)
    (hne : ∀ b ∈ bs, b.2 ≠ []) :
    (bucketAnalysisSection loopLength (bs.map mkBucket)).1[1]? =
      some ("Non-empty buckets: " ++ toString (bs.map mkBucket).length ++ "/" ++
        toString loopLength) ∧
    (bs.map mkBucket).length = bs.length ∧
    ((bs.map mkBucket).length : Int) ≤ loopLength := by
  refine ⟨?_, List.length_map _ _, ?_⟩
  · rw [bucketAnalysisSection_map_mkBucket]
    simp [List.length_map]
  · have hsub : (bs.map fun b => b.1).toFinset ⊆ Finset.Ico (0 : ℤ) loopLength := by
      intro x hx
      rw [List.mem_toFinset] at hx
      obtain ⟨b, hb, rfl⟩ := List.mem_map.1 hx
      rw [Finset.mem_Ico]
      exact hrange b hb
    have hcard := Finset.card_le_card hsub
    rw [List.toFinset_card_of_nodup hnd, Int.card_Ico, List.length_map] at hcard
    rw [List.length_map]
    omega

theorem claim_C7_witness :
    (0:Int) ≤ 16 ∧
    ((([(4, [(144, 60, 100)]), (7, [(178, 7, 127)])] :
        List (Int × List (Int × Int × Int))).map fun b => b.1).Nodup) ∧
    (∀ b ∈ ([(4, [(144, 60, 100)]), (7, [(178, 7, 127)])] :
        List (Int × List (Int × Int × Int))), 0 ≤ b.1 ∧ b.1 < 16) ∧
    (bucketAnalysisSection 16 (([(4, [(144, 60, 100)]), (7, [(178, 7, 127)])] :
        List (Int × List (Int × Int × Int))).map mkBucket)).1[1]? =
      some "Non-empty buckets: 2/16" ∧
    ((([(4, [(144, 60, 100)]), (7, [(178, 7, 127)])] :
        List (Int × List (Int × Int × Int))).map mkBucket).length : Int) ≤ 16 :=
  ⟨by decide, by decide, by decide,
   ((claim_C7 16 [(4, [(144, 60, 100)]), (7, [(178, 7, 127)])] (by decide) (by decide)
      (by decide) (by decide)).1).trans (by decide),
   (claim_C7 16 [(4, [(144, 60, 100)]), (7, [(178, 7, 127)])] (by decide) (by decide)
      (by decide) (by decide)).2.2⟩

/-- Claim C9: missing optional fields are not errors: an absent `debug`
record makes all counters and `lastPulseWithMidi` print as 0 and the
last-sent event decode as the all-zero generic fallback, an absent bucket
list behaves as the empty sequence, and the report runs to completion; and
an absent `lastMidiSent` alone decodes as the all-zero event
`status=0, data1=0, data2=0` via the generic fallback. -/
theorem claim_C9 (data : SnapshotJson) (slots : List SlotJson) (vloop : SlotJson)
    (loopLength crash_pulse : Int) (recFlag playFlag : Bool)
    (hs : data.slots = some slots)
    (hf : slots.find? (fun s => s.guid == some "VLOP") = some vloop)
    (hll : vloop.loopLength = some loopLength)
    (hcp : vloop.currentPulse = some crash_pulse)
    (hrec : vloop.isRecording = some recFlag)
    (hplay : vloop.isPlaying = some playFlag)
    (hdbg : vloop.debug = none)
    (hbk : vloop.buckets = none) :
    analyze_crash data =
      (playbackLines loopLength crash_pulse recFlag playFlag ++
       ["\n=== DEBUG COUNTERS ===",
        "Total step() calls:     0",
        "Total clock edges:      0",
        "Total MIDI received:    0",
        "Total MIDI sent:        0",
        "\nLast MIDI sent at pulse 0:",
        "  Status=0x0 data1=0 data2=0",
        "\n=== BUCKET ANALYSIS ===",
        "Non-empty buckets: 0/" ++ toString loopLength,
        "Total recorded events: 0",
        "Max events per bucket: 0",
        "\n=== CRASH POINT (Pulse " ++ toString crash_pulse ++ ") ===",
        "Bucket at crash pulse is EMPTY (no events)",
        "\n=== SURROUNDING BUCKETS ===",
        "\n=== PERFORMANCE STATS ==="], none) ∧
    (∀ d : DebugJson, d.lastMidiSent = none →
      lastMidiSection d =
        ["\nLast MIDI sent at pulse " ++ toString (d.lastPulseWithMidi.getD 0) ++ ":",
         "  " ++ decodeMidi 0 0 0]) ∧
    decodeMidi 0 0 0 = "Status=0x0 data1=0 data2=0" := by
  refine ⟨?_, ?_, by decide⟩
  · rw [analyze_crash_found data slots vloop loopLength crash_pulse recFlag playFlag
      hs hf hll hcp hrec hplay, hdbg, hbk]
    rfl
  · intro d hd
    simp [lastMidiSection, hd, emptyMidiEvent]

theorem claim_C9_witness :
    analyze_crash ⟨some [⟨some "VLOP", some 16, some 5, some true, some false, none, none⟩]⟩ =
      ([sep70,
        "VLoop CRASH ANALYSIS",
        sep70,
        "\n=== PLAYBACK STATE ===",
        "Loop Length:    16 pulses",
        "Current Pulse:  5 <-- CRASHED HERE",
        "Is Recording:   True",
        "Is Playing:     False",
        "\n=== DEBUG COUNTERS ===",
        "Total step() calls:     0",
        "Total clock edges:      0",
        "Total MIDI received:    0",
        "Total MIDI sent:        0",
        "\nLast MIDI sent at pulse 0:",
        "  Status=0x0 data1=0 data2=0",
        "\n=== BUCKET ANALYSIS ===",
        "Non-empty buckets: 0/16",
        "Total recorded events: 0",
        "Max events per bucket: 0",
        "\n=== CRASH POINT (Pulse 5) ===",
        "Bucket at crash pulse is EMPTY (no events)",
        "\n=== SURROUNDING BUCKETS ===",
        "\n=== PERFORMANCE STATS ==="], none) :=
  ((claim_C9 ⟨some [⟨some "VLOP", some 16, some 5, some true, some false, none, none⟩]⟩
      [⟨some "VLOP", some 16, some 5, some true, some false, none, none⟩]
      ⟨some "VLOP", some 16, some 5, some true, some false, none, none⟩
      16 5 true false rfl (by decide) rfl rfl rfl rfl rfl rfl).1).trans
    (by decide)

/-- A bucket with no `pulse` key makes the pulse comprehension fail. -/
theorem pulseNumbers_error (bs : List BucketJson) (h : ∃ b ∈ bs, b.pulse = none) :
    pulseNumbers bs = Except.error "pulse" := by
  induction bs with
  | nil => simp at h
  | cons b bs ih =>
    cases hb : b.pulse with
    | none => simp [pulseNumbers, hb]
    | some p =>
      obtain ⟨x, hx, hxp⟩ := h
      rcases List.mem_cons.1 hx with rfl | hx
      · rw [hb] at hxp; cases hxp
      · rw [pulseNumbers, hb, ih ⟨x, hx, hxp⟩]
        rfl

/-- When every bucket has a `pulse` key the pulse comprehension succeeds. -/
theorem pulseNumbers_isOk (bs : List BucketJson) (h : ∀ b ∈ bs, b.pulse ≠ none) :
    ∃ ps, pulseNumbers bs = Except.ok ps := by
  induction bs with
  | nil => exact ⟨[], rfl⟩
  | cons b bs ih =>
    obtain ⟨ps, hps⟩ := ih fun x hx => h x (List.mem_cons_of_mem b hx)
    cases hb : b.pulse with
    | none => exact absurd hb (h b (List.mem_cons_self b bs))
    | some p =>
      refine ⟨p :: ps, ?_⟩
      rw [pulseNumbers, hb, hps]
      rfl

/-- A bucket with no `events` key makes the event-count comprehension fail. -/
theorem eventLens_error (bs : List BucketJson) (h : ∃ b ∈ bs, b.events = none) :
    eventLens bs = Except.error "events" := by
  induction bs with
  | nil => simp at h
  | cons b bs ih =>
    cases hb : b.events with
    | none => simp [eventLens, hb]
    | some evs =>
      obtain ⟨x, hx, hxe⟩ := h
      rcases List.mem_cons.1 hx with rfl | hx
      · rw [hb] at hxe; cases hxe
      · rw [eventLens, hb, ih ⟨x, hx, hxe⟩]
        rfl

/-- A failure inside the bucket analysis section aborts the whole report
with that failure. -/
theorem reportBody_err_bucket (loopLength crash_pulse : Int)
    (recFlag playFlag : Bool) (debug : DebugJson) (buckets : List BucketJson)
    (e : String) (h : (bucketAnalysisSection loopLength buckets).2 = some e) :
    (reportBody loopLength crash_pulse recFlag playFlag debug buckets).2 = some e := by
  simp [reportBody, h]

/-- Claim C10 (implicit): required fields are read without presence checks,
so a snapshot lacking the root `slots` key, a found VLoop slot lacking any
of `loopLength`, `currentPulse`, `isRecording`, `isPlaying`, or a bucket
lacking `pulse` or `events`, makes the report abort with an uncaught
`KeyError` naming that key — not the clean slot-not-found diagnostic, and
possibly after emitting a partial report. -/
theorem claim_C10 :
    (∀ data : SnapshotJson, data.slots = none →
      analyze_crash data = ([], some "slots")) ∧
    (∀ (data : SnapshotJson) (slots : List SlotJson) (vloop : SlotJson),
      data.slots = some slots →
      slots.find? (fun s => s.guid == some "VLOP") = some vloop →
      (vloop.loopLength = none → (analyze_crash data).2 = some "loopLength") ∧
      (∀ loopLength, vloop.loopLength = some loopLength →
        vloop.currentPulse = none → (analyze_crash data).2 = some "currentPulse") ∧
      (∀ loopLength crash_pulse, vloop.loopLength = some loopLength →
        vloop.currentPulse = some crash_pulse →
        vloop.isRecording = none → (analyze_crash data).2 = some "isRecording") ∧
      (∀ loopLength crash_pulse recFlag, vloop.loopLength = some loopLength →
        vloop.currentPulse = some crash_pulse →
        vloop.isRecording = some recFlag →
        vloop.isPlaying = none → (analyze_crash data).2 = some "isPlaying") ∧
      (∀ loopLength crash_pulse recFlag playFlag bsj,
        vloop.loopLength = some loopLength →
        vloop.currentPulse = some crash_pulse →
        vloop.isRecording = some recFlag →
        vloop.isPlaying = some playFlag →
        vloop.buckets = some bsj →
        (∃ b ∈ bsj, b.pulse = none) → (analyze_crash data).2 = some "pulse") ∧
      (∀ loopLength crash_pulse recFlag playFlag bsj,
        vloop.loopLength = some loopLength →
        vloop.currentPulse = some crash_pulse →
        vloop.isRecording = some recFlag →
        vloop.isPlaying = some playFlag →
        vloop.buckets = some bsj →
        (∀ b ∈ bsj, b.pulse ≠ none) →
        (∃ b ∈ bsj, b.events = none) → (analyze_crash data).2 = some "events")) := by
  refine ⟨?_, ?_⟩
  · intro data h
    simp [analyze_crash, h]
  · intro data slots vloop hs hf
    refine ⟨?_, ?_, ?_, ?_, ?_, ?_⟩
    · intro h
      simp [analyze_crash, hs, hf, h]
    · intro loopLength hll h
      simp [analyze_crash, hs, hf, hll, h]
    · intro loopLength crash_pulse hll hcp h
      simp [analyze_crash, hs, hf, hll, hcp, h]
    · intro loopLength crash_pulse recFlag hll hcp hrec h
      simp [analyze_crash, hs, hf, hll, hcp, hrec, h]
    · intro loopLength crash_pulse recFlag playFlag bsj hll hcp hrec hplay hb hex
      rw [analyze_crash_found data slots vloop loopLength crash_pulse recFlag playFlag
        hs hf hll hcp hrec hplay, hb]
      refine reportBody_err_bucket _ _ _ _ _ _ _ ?_
      simp only [Option.getD_some, bucketAnalysisSection, pulseNumbers_error bsj hex]
    · intro loopLength crash_pulse recFlag playFlag bsj hll hcp hrec hplay hb hall hex
      rw [analyze_crash_found data slots vloop loopLength crash_pulse recFlag playFlag
        hs hf hll hcp hrec hplay, hb]
      refine reportBody_err_bucket _ _ _ _ _ _ _ ?_
      obtain ⟨ps, hps⟩ := pulseNumbers_isOk bsj hall
      simp only [Option.getD_some, bucketAnalysisSection, hps,
        eventLens_error bsj hex]

theorem claim_C10_witness :
    analyze_crash ⟨none⟩ = ([], some "slots") ∧
    (analyze_crash ⟨some [⟨some "VLOP", none, none, none, none, none, none⟩]⟩).2 =
      some "loopLength" ∧
    (analyze_crash ⟨some [⟨some "VLOP", some 16, some 5, some true, some false, none,
        some [⟨none, some []⟩]⟩]⟩).2 = some "pulse" :=
  ⟨claim_C10.1 ⟨none⟩ rfl,
   (claim_C10.2 ⟨some [⟨some "VLOP", none, none, none, none, none, none⟩]⟩
      [⟨some "VLOP", none, none, none, none, none, none⟩]
      ⟨some "VLOP", none, none, none, none, none, none⟩
      rfl (by decide)).1 rfl,
   (claim_C10.2 ⟨some [⟨some "VLOP", some 16, some 5, some true, some false, none,
        some [⟨none, some []⟩]⟩]⟩
      [⟨some "VLOP", some 16, some 5, some true, some false, none, some [⟨none, some []⟩]⟩]
      ⟨some "VLOP", some 16, some 5, some true, some false, none, some [⟨none, some []⟩]⟩
      rfl (by decide)).2.2.2.2.1 16 5 true false [⟨none, some []⟩]
      rfl rfl rfl rfl rfl ⟨⟨none, some []⟩, by decide, rfl⟩⟩

end VLoopAnalyze
